import Mathlib

/-!
Verification of the gitlab-runner-kubevirt executor core against its
natural-language specification.  The Go sources are shallowly embedded:
pure functions become Lean functions, effectful code becomes explicit
state/trace passing parameterised over oracles for the cluster API, the
entropy source and external libraries (bcrypt, kubernetes quantity and
time parsers).  Machine integers are modelled as `Nat`/`Int`; byte
streams as `List Nat`; Go strings as Lean `String` (byte-level facts use
`String.data`).
-/

namespace GRKV

/-! ## String containment (models Go strings.Contains / strings.HasPrefix) -/

/-- Boolean test that `n` occurs as a contiguous substring of `hay`
(character lists).  Mirrors Go `strings.Contains`. -/
def listContains (hay n : List Char) : Bool :=
  match hay with
  | [] => n.isEmpty
  | _ :: t => n.isPrefixOf hay || listContains t n

/-- Go `strings.Contains s sub`. -/
def strContains (s sub : String) : Bool :=
  listContains s.data sub.data

/-! ## Identity digest (main.go, `digest`)

The Go function hashes a length-prefixed encoding of its variadic
arguments.  Crucially, `encoding/binary.Write` only accepts data of a
fixed-size type; plain `int` (the type of `len(v)` and `len(e)`) is
rejected with an error BEFORE any byte is written, and every call site
in `digest` discards the returned error.  Consequently the element
count and the per-string length prefixes contribute no bytes at all to
the hash input; only the raw string bytes and the big-endian `int64`
encodings are hashed. -/

/-- Big-endian byte encoding of `n` in `w` bytes (models what
`encoding/binary.Write` emits for a fixed-size unsigned/two's-complement
value). -/
def beBytes : Nat → Nat → List Nat
  | 0, _ => []
  | w + 1, n => beBytes w (n / 256) ++ [n % 256]

/-- An argument passed to `digest`.  `str` carries the UTF-8 bytes of a
Go string; `int64` models `time.Time.UnixNano()`. -/
inductive GoArg
  | str (bytes : List Nat)
  | int64 (n : Int)
deriving DecidableEq, Repr

/-- Bytes emitted by `binary.Write(w, binary.BigEndian, x)` when `x`
has Go type `int` — the plain `int` kind is not a fixed-size type, so
`binary.Write` returns `errors.New("binary.Write: invalid type int")`
without writing anything; `digest` ignores the error. -/
def binaryWriteGoInt (_ : Nat) : List Nat := []

/-- Bytes emitted for one element of the variadic argument list, per the
`switch` in `digest`: a string contributes `binary.Write(digest, BE,
len(e))` (no bytes, see `binaryWriteGoInt`) followed by its raw bytes;
an `int64` contributes its 8-byte big-endian encoding. -/
def encodeArg : GoArg → List Nat
  | .str bs => binaryWriteGoInt bs.length ++ bs
  | .int64 n => beBytes 8 (n.emod (2 ^ 64)).toNat

/-- The byte stream fed to the hash by `digest`: the element-count write
(`binary.Write(digest, BE, len(v))`, again a no-op for Go `int`)
followed by each element's encoding. -/
def digestInput (v : List GoArg) : List Nat :=
  binaryWriteGoInt v.length ++ (v.map encodeArg).flatten

/-- The digest function: the hex digest of `hashfunc` applied to the
accumulated byte stream (`fmt.Sprintf("%x", digest.Sum(nil))`).  The
hash itself (`sha1.New`) is an oracle parameter. -/
def digest (hashfunc : List Nat → String) (v : List GoArg) : String :=
  hashfunc (digestInput v)

/-- UTF-8 bytes of an ASCII string. -/
def utf8 (s : String) : List Nat := s.data.map Char.toNat

/-! ## security.go -/

/-- Character set of generated passwords (`passwordChars`). -/
def passwordChars : String :=
  "abcdefghijklmnopqrstuvwxyzABCDEFGHIJKLMNOPQRSTUVWXYZ0123456789"

/-- Default password length (`passwordLength`). -/
def passwordLength : Nat := 32

/-- Loop body of `GenerateSecurePassword`: draw `n` indices from the
entropy oracle (modelling `rand.Int(rand.Reader, charsLen)`, which
returns a value in `[0, 62)` or an entropy error) starting at draw
number `i`, and map them through `passwordChars`. -/
def genPwLoop (ent : Nat → Except String (Fin 62)) : Nat → Nat → Except String (List Char)
  | _, 0 => .ok []
  | i, n + 1 =>
    match ent i with
    | .error e => .error ("failed to generate random number: " ++ e)
    | .ok num =>
      match genPwLoop ent (i + 1) n with
      | .error e => .error e
      | .ok rest => .ok (passwordChars.data.getD num.val 'a' :: rest)

/-- GenerateSecurePassword (security.go): a non-positive requested
length falls back to `passwordLength = 32`; otherwise exactly `length`
characters are drawn from `passwordChars`.  `ent` is the entropy
oracle. -/
def GenerateSecurePassword (ent : Nat → Except String (Fin 62)) (length : Int) :
    Except String String :=
  match genPwLoop ent 0 (if length ≤ 0 then passwordLength else length.toNat) with
  | .error e => .error e
  | .ok cs => .ok ⟨cs⟩

/-- Effective length produced by `GenerateSecurePassword`. -/
def effectiveLength (length : Int) : Nat :=
  if length ≤ 0 then passwordLength else length.toNat

/-- HashPasswordForCloudInit (security.go): bcrypt at default cost,
modelled by the oracle `bcrypt`. -/
def HashPasswordForCloudInit (bcrypt : String → Except String String)
    (password : String) : Except String String :=
  match bcrypt password with
  | .error e => .error ("failed to hash password: " ++ e)
  | .ok h => .ok h

/-- The literal Linux cloud-config template of `generateLinuxCloudInit`,
as a function of the username and the ALREADY-HASHED password (the only
password-derived datum that reaches the document). -/
def linuxUserData (username hashedPassword : String) : String :=
  "#cloud-config\nusers:\n  - name: " ++ username ++
  "\n    lock_passwd: false\n    passwd: " ++ hashedPassword ++
  "\n    sudo: ALL=(ALL) NOPASSWD:ALL\n    shell: /bin/bash\nssh_pwauth: true\nchpasswd:\n  expire: false\n"

/-- The literal Windows cloud-config template of
`generateWindowsCloudInit`, carrying the plaintext password. -/
def windowsUserData (username password : String) : String :=
  "#cloud-config\nusers:\n  - name: " ++ username ++
  "\n    passwd: " ++ password ++
  "\n    groups: Administrators\n"

/-- generateLinuxCloudInit (security.go). -/
def generateLinuxCloudInit (bcrypt : String → Except String String)
    (username password : String) : Except String String :=
  match HashPasswordForCloudInit bcrypt password with
  | .error e => .error e
  | .ok hashed => .ok (linuxUserData username hashed)

/-- generateWindowsCloudInit (security.go). -/
def generateWindowsCloudInit (username password : String) :
    Except String String :=
  .ok (windowsUserData username password)

/-- GenerateCloudInitUserData (security.go): dispatch on the shell. -/
def GenerateCloudInitUserData (bcrypt : String → Except String String)
    (shell username password : String) : Except String String :=
  match shell with
  | "bash" => generateLinuxCloudInit bcrypt username password
  | "pwsh" => generateWindowsCloudInit username password
  | _ => .error ("unsupported shell: " ++ shell ++ " (expected 'bash' or 'pwsh')")

/-! ## Data model (main.go `JobContext`, spec-modelled `RunConfig`) -/

/-- JobContext (main.go): per-invocation bundle; only string-typed
fields are carried across phases. -/
structure JobContext where
  id : String := ""
  baseName : String := ""
  image : String := ""
  imagePullPolicy : String := ""
  imagePullSecret : String := ""
  /-- the `Namespace` field (`namespace` is reserved in Lean). -/
  ns : String := ""
  machineType : String := ""
  architecture : String := ""
  timezone : String := ""
  cpuRequest : String := ""
  cpuLimit : String := ""
  memoryRequest : String := ""
  memoryLimit : String := ""
  ephemeralStorageRequest : String := ""
  ephemeralStorageLimit : String := ""
  projectID : String := ""
  jobID : String := ""
  jobName : String := ""
  jobRef : String := ""
  jobSha : String := ""
  jobBeforeSha : String := ""
  jobURL : String := ""
  createdAt : String := ""
  ttl : String := ""
deriving DecidableEq, Repr

/-- Modelled from the spec: the SSH credential block of `RunConfig`
(its Go declaration lives in a file absent from the sources; `k8s.go`
`GetSSHSecret` shows the fields `User`, `Password`, `Port`, and
`prepare`/`cleanup`/`gc` use `SSH.Password` and `SSH.SecretRef`). -/
structure SSHConfig where
  user : String := ""
  password : String := ""
  secretRef : String := ""
  port : String := ""
deriving DecidableEq, Repr

/-- Modelled from the spec: `RunConfig` carries the shell selector and
the SSH block; it is JSON-serialised into a VM annotation at
provisioning (its Go declaration is absent from the sources). -/
structure RunConfig where
  shell : String := ""
  ssh : SSHConfig := {}
deriving DecidableEq, Repr

/-- Label prefix (k8s.go `labelPrefix`). -/
def labelPrefix : String := "io.kubevirt.gitlab-runner"

/-- Modelled from the spec: the annotation key under which the
JSON-encoded RunConfig is stored (`RunConfigKey`; its Go declaration is
absent from the sources, which fix only that it is a single constant
key owned by this runner). -/
def RunConfigKey : String := labelPrefix ++ "/run-config"

/-- Naive JSON escape used by the marshal model; the serialised fields
(shell, user, secret name) never contain characters needing escapes in
this system, so it is the identity on them. -/
def jsonStr (s : String) : String := "\"" ++ s ++ "\""

/-- Modelled from the spec: `json.Marshal` of a RunConfig value — an
object with the shell and the nested ssh object carrying user,
password and secretRef. -/
def jsonRunConfig (rc : RunConfig) : String :=
  "\x7b\"shell\":" ++ jsonStr rc.shell ++
  ",\"ssh\":\x7b\"user\":" ++ jsonStr rc.ssh.user ++
  ",\"password\":" ++ jsonStr rc.ssh.password ++
  ",\"secretRef\":" ++ jsonStr rc.ssh.secretRef ++ "\x7d\x7d"

/-! ## VM object construction (k8s.go `CreateJobVM`) -/

/-- The cluster-facing VirtualMachineInstance object as composed by
`CreateJobVM`: the fields the executor sets.  `requests`/`limits` hold
the parsed resource quantities in canonical form, keyed by resource
name. -/
structure VMObject where
  generateName : String
  labels : List (String × String)
  annotations : List (String × String)
  machineType : String
  cpuModel : Option String
  timezone : String
  requests : List (String × String)
  limits : List (String × String)
  diskNames : List String
  rootImage : String
  rootImagePullPolicy : String
  rootImagePullSecret : String
  userDataSecretRef : String
deriving DecidableEq, Repr

/-- One step of the `toParse` loop in `CreateJobVM`: an empty value is
omitted; otherwise it must parse (oracle `pq`, modelling
`resource.ParseQuantity`), a failure being fatal with the resource key
in the message. -/
def parseResource (pq : String → Option String) (key value : String) :
    Except String (List (String × String)) :=
  if value = "" then .ok []
  else
    match pq value with
    | some q => .ok [(key, q)]
    | none => .error ("parsing " ++ key ++ " quantity")

/-- CreateJobVM (k8s.go), up to the final API POST: parses the six
resource quantities in source order, requires a non-empty image,
marshals the RunConfig into the `RunConfigKey` annotation, and composes
the VM object (generateName, id/created-at/ttl labels, provenance
annotations, machine type, optional `host-passthrough` CPU model when
an architecture is set, clock timezone, `root`/`cloudinit` disks,
container-disk root volume and NoCloud volume referencing `secretName`
as userDataSecretRef).  The POST itself is modelled by the caller
(`PrepareCmd.Run`) recording a submission event answered by a cluster
oracle. -/
def CreateJobVM (pq : String → Option String) (jctx : JobContext)
    (rc : RunConfig) (secretName : String) : Except String VMObject := do
  let cpuReq ← parseResource pq "cpu" jctx.cpuRequest
  let cpuLim ← parseResource pq "cpu" jctx.cpuLimit
  let memReq ← parseResource pq "memory" jctx.memoryRequest
  let memLim ← parseResource pq "memory" jctx.memoryLimit
  let storReq ← parseResource pq "ephemeral-storage" jctx.ephemeralStorageRequest
  let storLim ← parseResource pq "ephemeral-storage" jctx.ephemeralStorageLimit
  if jctx.image = "" then
    .error "must specify a containerdisk image"
  else
    let runConfigJSON := jsonRunConfig rc
    .ok
      { generateName := jctx.baseName
        labels :=
          [(labelPrefix ++ "/id", jctx.id),
           (labelPrefix ++ "/created-at", jctx.createdAt),
           (labelPrefix ++ "/ttl", jctx.ttl)]
        annotations :=
          [("project.runner.gitlab.com/id", jctx.projectID),
           ("job.runner.gitlab.com/id", jctx.jobID),
           ("job.runner.gitlab.com/name", jctx.jobName),
           ("job.runner.gitlab.com/ref", jctx.jobRef),
           ("job.runner.gitlab.com/sha", jctx.jobSha),
           ("job.runner.gitlab.com/before-sha", jctx.jobBeforeSha),
           ("job.runner.gitlab.com/url", jctx.jobURL),
           (RunConfigKey, runConfigJSON)]
        machineType := jctx.machineType
        cpuModel := if jctx.architecture ≠ "" then some "host-passthrough" else none
        timezone := jctx.timezone
        requests := cpuReq ++ memReq ++ storReq
        limits := cpuLim ++ memLim ++ storLim
        diskNames := ["root", "cloudinit"]
        rootImage := jctx.image
        rootImagePullPolicy := jctx.imagePullPolicy
        rootImagePullSecret := jctx.imagePullSecret
        userDataSecretRef := secretName }

/-! ## FindJobVM (k8s.go) -/

/-- A listed VirtualMachineInstance as observed by the phases that read
VMs back from the cluster. -/
structure VMI where
  name : String := ""
  resourceVersion : String := ""
  phase : String := ""
  labels : List (String × String) := []
  annotations : List (String × String) := []
deriving DecidableEq, Repr

/-- Error text for a vanished VM (k8s.go). -/
def disappearedMsg : String :=
  "Virtual Machine instance disappeared while the job was running!"

/-- Error text for an ambiguous id label (k8s.go); mentions the count
and the id. -/
def ambiguousMsg (count : Nat) (id : String) : String :=
  "Virtual Machine instance has ambiguous ID! " ++ toString count ++
  " instances found with ID " ++ id

/-- FindJobVM (k8s.go), applied to the outcome of listing the VMs
matching the id-label selector: a list error propagates; zero matches
is the "disappeared" error; two or more matches is the fatal ambiguity
error; exactly one match is returned. -/
def FindJobVM (id : String) (listResult : Except String (List VMI)) :
    Except String VMI :=
  match listResult with
  | .error e => .error e
  | .ok items =>
    if items.length = 0 then .error disappearedMsg
    else if items.length > 1 then .error (ambiguousMsg items.length id)
    else .ok (items.headD {})

/-! ## WatchJobVM (k8s.go)

The watch loop is embedded over a transcript of connections: each
attempt to open the stream either fails (the Go code returns that error
immediately) or yields the finite list of events delivered before the
channel closes.  Both call sites pass a non-nil `initial`, so the
resume resourceVersion is modelled as a plain string threaded through
the loop.  The `panic` on a payload of unexpected type is
unrepresentable here because events carry their payloads well-typed. -/

/-- The callback answer: Go `nil`, the `ErrWatchDone` sentinel, or any
other error. -/
inductive CbRes
  | next
  | watchDone
  | failed (e : String)
deriving DecidableEq, Repr

/-- One event received from the watch channel: an `Error`-typed event
carrying a `metav1.Status` (reason, message), an event whose `Type` is
the empty string, or a VM event of the given type. -/
inductive WEvent
  | errEvent (reason message : String)
  | emptyType
  | vmEvent (t : String) (vm : VMI)
deriving DecidableEq, Repr

/-- One attempt to open the watch stream: either the client returns an
error, or a connection delivering these events before the channel
closes. -/
def WConn := Except String (List WEvent)

/-- Outcome of the modelled watch: `pending` means the transcript was
exhausted while the loop would keep waiting/reopening; `done` is a nil
return; `failed` a returned error. -/
inductive WatchOut
  | pending
  | done
  | failed (e : String)
deriving DecidableEq, Repr

/-- The k8s `watch.Error` event type string. -/
def watchError : String := "ERROR"

/-- The k8s `watch.Deleted` event type string. -/
def watchDeleted : String := "DELETED"

/-- The inner `select`/receive loop of `WatchJobVM` on one connection.
`reopen rv` models `continue outer` with the resume resourceVersion set
to `rv`.  A closed channel (end of the event list) or an empty event
type reopens at the current version; an `Error` event first consults
the callback — sentinel terminates successfully, another error is
returned — and otherwise reopens at version "0"; any other event is
passed to the callback, the sentinel again terminating successfully,
and on a nil answer the resume version advances to the observed VM's
resourceVersion. -/
def watchConsume (fn : String → Option VMI → CbRes)
    (reopen : String → WatchOut × List String) :
    String → List WEvent → WatchOut × List String
  | rv, [] => reopen rv
  | rv, .emptyType :: _ => reopen rv
  | _, .errEvent _ _ :: _ =>
    match fn watchError none with
    | .watchDone => (.done, [])
    | .failed e => (.failed e, [])
    | .next => reopen "0"
  | _, .vmEvent t vm :: rest =>
    match fn t (some vm) with
    | .watchDone => (.done, [])
    | .failed e => (.failed e, [])
    | .next => watchConsume fn reopen vm.resourceVersion rest

/-- WatchJobVM (k8s.go) over a transcript of connections, returning the
outcome together with the trace of resume resourceVersions used for
each open attempt (in order). -/
def WatchJobVM (fn : String → Option VMI → CbRes) :
    String → List WConn → WatchOut × List String
  | _, [] => (.pending, [])
  | rv, .error e :: _ => (.failed e, [rv])
  | rv, .ok evs :: rest =>
    match watchConsume fn (fun rv' => WatchJobVM fn rv' rest) rv evs with
    | (r, t) => (r, rv :: t)

/-! ## GC expiry decision (gc.go, loop body of `GCCmd.Run`)

Time is modelled in nanoseconds (`Int`, as Go `time.Time.UnixNano` and
`time.Duration` both are int64 nanosecond counts); the `time.Parse`
(RFC3339) and `time.ParseDuration` library calls are oracles returning
`none` on a parse error. -/

/-- What the GC loop decides for a single listed VM. -/
inductive GCAction
  | skipped
  | delete
  | keep
deriving DecidableEq, Repr

/-- Per-VM decision of `GCCmd.Run` (gc.go): a missing (empty) or
unparseable `created-at` label skips the VM; the effective ttl is the
parsed `ttl` label when present and parseable, falling back to the
`--max-age` flag when the label is absent or unparseable; the VM is
selected for deletion exactly when `now - createdAt > ttl`. -/
def gcDecision (parseTime : String → Option Int)
    (parseDuration : String → Option Int)
    (now maxAge : Int) (createdAtStr ttlStr : String) : GCAction :=
  if createdAtStr = "" then .skipped
  else
    match parseTime createdAtStr with
    | none => .skipped
    | some createdAt =>
      let ttl : Int :=
        if ttlStr ≠ "" then
          match parseDuration ttlStr with
          | some d => d
          | none => maxAge
        else maxAge
      if now - createdAt > ttl then .delete else .keep

/-- Nanoseconds in one hour (`time.Hour`). -/
def hourNs : Int := 3600 * 1000000000

/-! ## CleanupCmd.Run (cleanup source file) -/

/-- Effects issued by `cleanup` against the cluster, in order. -/
inductive CleanupEvent
  | secretDelete (name : String)
  | vmDelete (name : String)
deriving DecidableEq, Repr

/-- The `--skip-if` test for one entry against the VM's `status.phase`:
an entry starting with "!" (`strings.HasPrefix`) skips when the phase
differs from the rest of the entry (`skipIf[1:]`), any other entry
skips when the phase equals it.  Stated on the character lists (the
phases involved are ASCII, so Go's byte slicing agrees). -/
def skipMatch (phase skipIf : String) : Bool :=
  match skipIf.data with
  | '!' :: rest => phase.data ≠ rest
  | _ => phase = skipIf

/-- Oracles for the effectful steps of `cleanup`. -/
structure CleanupDeps where
  /-- outcome of listing the VMs matching the id selector. -/
  listResult : Except String (List VMI)
  /-- `KubeConfig()` outcome. -/
  kubeConfig : Except String Unit
  /-- models `json.Unmarshal` of the RunConfig annotation. -/
  parseRC : String → Option RunConfig
  /-- cluster answer to the Secret deletion. -/
  secretDelete : String → Except String Unit
  /-- cluster answer to the VM deletion. -/
  vmDelete : String → Except String Unit
  /-- transcript of the post-delete watch connections. -/
  watchConns : List WConn

/-- The callback `cleanup` passes to `WatchJobVM`: abandon (sentinel)
on an `Error` event, finish (sentinel) on `Deleted`, keep waiting
otherwise. -/
def cleanupWatchFn (et : String) (_ : Option VMI) : CbRes :=
  if et = watchError then .watchDone
  else if et = watchDeleted then .watchDone
  else .next

/-- CleanupCmd.Run: find the VM (a "disappeared" error is tolerated as
success, any other find error is wrapped); any matching `--skip-if`
entry short-circuits to success with no deletion; otherwise the
credentials Secret named by the RunConfig annotation is deleted
warn-on-fail, the VM is deleted (that failure propagates), and the
watch waits for the VM to go away.  Returns the result paired with the
trace of deletion calls issued. -/
def CleanupCmd.Run (deps : CleanupDeps) (skipIf : List String)
    (jctx : JobContext) : Except String Unit × List CleanupEvent :=
  match FindJobVM jctx.id deps.listResult with
  | .error e =>
    if strContains e disappearedMsg then (.ok (), [])
    else (.error ("cleanup error: " ++ e), [])
  | .ok vm =>
    if skipIf.any (skipMatch vm.phase) then (.ok (), [])
    else
      let rcAnn := (vm.annotations.lookup RunConfigKey).getD ""
      let secretEvents : List CleanupEvent :=
        match deps.parseRC rcAnn with
        | some rc =>
          if rc.ssh.secretRef ≠ "" then
            match deps.kubeConfig with
            | .ok _ =>
              -- the deletion outcome is only warned about, never fatal
              match deps.secretDelete rc.ssh.secretRef with
              | _ => [.secretDelete rc.ssh.secretRef]
            | .error _ => []
          else []
        | none => []
      match deps.vmDelete vm.name with
      | .error e => (.error e, secretEvents ++ [.vmDelete vm.name])
      | .ok _ =>
        let wres := (WatchJobVM cleanupWatchFn vm.resourceVersion deps.watchConns).1
        match wres with
        | .done => (.ok (), secretEvents ++ [.vmDelete vm.name])
        | .pending => (.ok (), secretEvents ++ [.vmDelete vm.name])
        | .failed e => (.error e, secretEvents ++ [.vmDelete vm.name])

/-! ## PrepareCmd.Run (prepare source file) -/

/-- The defaulted flags of `prepare` that are merged into the
JobContext, plus the embedded RunConfig. -/
structure PrepareCmd where
  defaultImage : String := ""
  defaultImagePullPolicy : String := ""
  defaultImagePullSecret : String := ""
  defaultMachineType : String := ""
  defaultArchitecture : String := ""
  defaultCPURequest : String := "1"
  defaultCPULimit : String := "1"
  defaultMemoryRequest : String := "1Gi"
  defaultMemoryLimit : String := "1Gi"
  defaultEphemeralStorageRequest : String := ""
  defaultEphemeralStorageLimit : String := ""
  defaultTimezone : String := "Etc/UTC"
  runConfig : RunConfig := {}
deriving DecidableEq, Repr

/-- The defaults merge at the head of `PrepareCmd.Run`: every empty
JobContext field listed is replaced by the command's default. -/
def mergeDefaults (cmd : PrepareCmd) (jctx : JobContext) : JobContext :=
  { jctx with
    cpuRequest := if jctx.cpuRequest = "" then cmd.defaultCPURequest else jctx.cpuRequest
    cpuLimit := if jctx.cpuLimit = "" then cmd.defaultCPULimit else jctx.cpuLimit
    memoryRequest := if jctx.memoryRequest = "" then cmd.defaultMemoryRequest else jctx.memoryRequest
    memoryLimit := if jctx.memoryLimit = "" then cmd.defaultMemoryLimit else jctx.memoryLimit
    ephemeralStorageRequest :=
      if jctx.ephemeralStorageRequest = "" then cmd.defaultEphemeralStorageRequest
      else jctx.ephemeralStorageRequest
    ephemeralStorageLimit :=
      if jctx.ephemeralStorageLimit = "" then cmd.defaultEphemeralStorageLimit
      else jctx.ephemeralStorageLimit
    imagePullPolicy := if jctx.imagePullPolicy = "" then cmd.defaultImagePullPolicy else jctx.imagePullPolicy
    imagePullSecret := if jctx.imagePullSecret = "" then cmd.defaultImagePullSecret else jctx.imagePullSecret
    image := if jctx.image = "" then cmd.defaultImage else jctx.image
    timezone := if jctx.timezone = "" then cmd.defaultTimezone else jctx.timezone
    machineType := if jctx.machineType = "" then cmd.defaultMachineType else jctx.machineType
    architecture := if jctx.architecture = "" then cmd.defaultArchitecture else jctx.architecture }

/-- String data of the per-job credentials Secret (`CreateVMSecret`). -/
structure SecretData where
  user : String
  password : String
  userdata : String
deriving DecidableEq, Repr

/-- API calls issued by `prepare` against the cluster, in order. -/
inductive PrepEvent
  | secretCreate (name : String) (data : SecretData)
  | vmSubmit (vm : VMObject)
  | secretDelete (name : String)
  | dial (ip : String) (creds : SSHConfig)
deriving DecidableEq, Repr

/-- Oracles for the effectful steps of `prepare`. -/
structure PrepareDeps where
  /-- the entropy source behind `GenerateSecurePassword`. -/
  entropy : Nat → Except String (Fin 62)
  /-- bcrypt at default cost. -/
  bcrypt : String → Except String String
  /-- `KubeConfig()` outcome. -/
  kubeConfig : Except String Unit
  /-- cluster answer to the Secret creation (`CreateVMSecret`). -/
  secretCreate : String → SecretData → Except String Unit
  /-- `resource.ParseQuantity`. -/
  parseQuantity : String → Option String
  /-- cluster answer to the VM creation POST. -/
  vmSubmit : VMObject → Except String Unit
  /-- cluster answer to the rollback Secret deletion. -/
  secretDelete : String → Except String Unit
  /-- outcome of the readiness watch, abstracted to the primary IP of
  the ready VM (the watch itself is `WatchJobVM`, modelled above). -/
  watchResult : Except String String
  /-- the SSH dial (`DialSSH`), an opaque reachability probe. -/
  dial : String → SSHConfig → Except String Unit

/-- The RunConfig as updated by prepare before marshalling — models
the two assignments `rc.SSH.Password = ""` (clear password from
config) and `rc.SSH.SecretRef = secret.Name` (store secret
reference). -/
def clearedRunConfig (cmd : PrepareCmd) (secretName : String) : RunConfig :=
  { cmd.runConfig with ssh := { cmd.runConfig.ssh with password := "", secretRef := secretName } }

/-- PrepareCmd.Run: merge defaults; generate the password and the
cloud-init user-data; create the credentials Secret
(name `vm-creds-<id>`, string data user/password/userdata); clear
`ssh.password` and point `ssh.secretRef` at the Secret; build and
submit the VM — on a VM-creation failure delete the Secret (its own
failure being discarded) and surface the creation error unchanged —
then watch for readiness and dial SSH once with the cleared
credentials.  Returns the result paired with the ordered trace of
cluster calls. -/
def PrepareCmd.Run (deps : PrepareDeps) (cmd : PrepareCmd)
    (jctx0 : JobContext) : Except String Unit × List PrepEvent :=
  let jctx := mergeDefaults cmd jctx0
  match GenerateSecurePassword deps.entropy 32 with
  | .error e => (.error ("failed to generate password: " ++ e), [])
  | .ok randomPassword =>
  match GenerateCloudInitUserData deps.bcrypt cmd.runConfig.shell
      cmd.runConfig.ssh.user randomPassword with
  | .error e => (.error ("failed to generate cloud-init: " ++ e), [])
  | .ok cloudInitUserData =>
  match deps.kubeConfig with
  | .error e => (.error ("failed to get kubernetes config: " ++ e), [])
  | .ok _ =>
  let secretName := "vm-creds-" ++ jctx.id
  let sdata : SecretData :=
    { user := cmd.runConfig.ssh.user, password := randomPassword
      userdata := cloudInitUserData }
  match deps.secretCreate secretName sdata with
  | .error e =>
    (.error ("failed to create VM secret: failed to create secret: " ++ e),
     [.secretCreate secretName sdata])
  | .ok _ =>
  let rc : RunConfig := clearedRunConfig cmd secretName
  match CreateJobVM deps.parseQuantity jctx rc secretName with
  | .error e =>
    -- build failure inside CreateJobVM: rollback, surface unchanged
    let _ := deps.secretDelete secretName
    (.error e, [.secretCreate secretName sdata, .secretDelete secretName])
  | .ok vm =>
  match deps.vmSubmit vm with
  | .error e =>
    -- cluster rejected the POST: rollback, surface unchanged
    let _ := deps.secretDelete secretName
    (.error e,
     [.secretCreate secretName sdata, .vmSubmit vm, .secretDelete secretName])
  | .ok _ =>
  match deps.watchResult with
  | .error e => (.error e, [.secretCreate secretName sdata, .vmSubmit vm])
  | .ok ip =>
  match deps.dial ip rc.ssh with
  | .error e =>
    (.error e,
     [.secretCreate secretName sdata, .vmSubmit vm, .dial ip rc.ssh])
  | .ok _ =>
    (.ok (),
     [.secretCreate secretName sdata, .vmSubmit vm, .dial ip rc.ssh])

/-- Constant entropy oracle used to exercise the password generator on
concrete inputs. -/
def constEntropy : Nat → Except String (Fin 62) := fun _ => .ok 0

/-- Constant bcrypt oracle used to exercise the cloud-init generator on
concrete inputs. -/
def constBcrypt : String → Except String String :=
  fun _ => .ok "$2a$10$N9qo8uLOickgx2ZMRZoMye"

/-! ### Concrete fixtures used to exercise the prepare phase -/

/-- A concrete prepare command: bash shell, user `runner`, a flag-set
password that prepare must clear, and a default image. -/
def cmd0 : PrepareCmd :=
  { defaultImage := "registry/runner:1"
    runConfig :=
      { shell := "bash"
        ssh := { user := "runner", password := "flagpw" } } }

/-- A concrete job context with id `abc` and no image (so the default
applies). -/
def jctx00 : JobContext := { id := "abc" }

/-- Prepare oracles for the rollback scenario: everything succeeds
except the VM creation POST, which the cluster rejects with
`Forbidden`; the rollback Secret deletion itself fails (and must be
swallowed). -/
def depsRollback : PrepareDeps :=
  { entropy := constEntropy
    bcrypt := constBcrypt
    kubeConfig := .ok ()
    secretCreate := fun _ _ => .ok ()
    parseQuantity := fun s => some s
    vmSubmit := fun _ => .error "Forbidden"
    secretDelete := fun _ => .error "boom"
    watchResult := .ok "10.0.0.5"
    dial := fun _ _ => .ok () }

/-- Prepare oracles for the happy path: every step succeeds. -/
def depsHappy : PrepareDeps :=
  { entropy := constEntropy
    bcrypt := constBcrypt
    kubeConfig := .ok ()
    secretCreate := fun _ _ => .ok ()
    parseQuantity := fun s => some s
    vmSubmit := fun _ => .ok ()
    secretDelete := fun _ => .ok ()
    watchResult := .ok "10.0.0.5"
    dial := fun _ _ => .ok () }

/-- The VM object built on the happy path (fallback value unused: the
build succeeds). -/
def vm0 : VMObject :=
  (CreateJobVM depsHappy.parseQuantity (mergeDefaults cmd0 jctx00)
    (clearedRunConfig cmd0 "vm-creds-abc") "vm-creds-abc").toOption.getD
    { generateName := "", labels := [], annotations := [], machineType := ""
      cpuModel := none, timezone := "", requests := [], limits := []
      diskNames := [], rootImage := "", rootImagePullPolicy := ""
      rootImagePullSecret := "", userDataSecretRef := "" }

/-! # Theorems -/

/-! ## Substring helper lemmas -/

theorem isPrefixOf_append {l m b : List Char} (h : l.isPrefixOf m = true) :
    l.isPrefixOf (m ++ b) = true := by
  induction l generalizing m with
  | nil => simp [List.isPrefixOf]
  | cons c l ih =>
    cases m with
    | nil => simp [List.isPrefixOf] at h
    | cons d m =>
      simp only [List.cons_append, List.isPrefixOf, Bool.and_eq_true] at h ⊢
      exact ⟨h.1, ih h.2⟩

theorem listContains_append_right {a b n : List Char}
    (h : listContains b n = true) : listContains (a ++ b) n = true := by
  induction a with
  | nil => simpa using h
  | cons c a ih =>
    simp only [List.cons_append, listContains, Bool.or_eq_true]
    exact Or.inr ih

theorem listContains_nil (h : List Char) : listContains h [] = true := by
  cases h <;> simp [listContains, List.isPrefixOf, List.isEmpty]

theorem listContains_append_left {a b n : List Char}
    (h : listContains a n = true) : listContains (a ++ b) n = true := by
  induction a with
  | nil =>
    simp only [listContains, List.isEmpty_iff] at h
    subst h
    exact listContains_nil _
  | cons c a ih =>
    simp only [listContains, Bool.or_eq_true] at h
    simp only [List.cons_append, listContains, Bool.or_eq_true]
    cases h with
    | inl hp => exact Or.inl (isPrefixOf_append hp)
    | inr hc => exact Or.inr (ih hc)

/-- Containment of a middle component of a three-part concatenation. -/
theorem listContains_middle {a b c n : List Char}
    (h : listContains b n = true) :
    listContains (a ++ b ++ c) n = true :=
  listContains_append_left (listContains_append_right h)

theorem isPrefixOf_self (n : List Char) : n.isPrefixOf n = true := by
  induction n with
  | nil => simp [List.isPrefixOf]
  | cons c t ih => simp [List.isPrefixOf, ih]

theorem listContains_self (n : List Char) : listContains n n = true := by
  cases n with
  | nil => simp [listContains, List.isEmpty]
  | cons c t => simp [listContains, isPrefixOf_self]

/-! ## C1 — the job-ID digest has no length prefixes -/

/-- C1 (code bug): the spec asserts the digest input is length-prefixed
— a 64-bit big-endian element count, then a length prefix before each
string — so that tuples differing only in element boundaries hash
differently.  In the code every such prefix is written with
`binary.Write(digest, binary.BigEndian, len(...))`, whose argument has
Go type `int`; `encoding/binary` rejects plain `int` (it is not a
fixed-size type) and writes nothing, and the error is discarded.  Hence
for EVERY hash function (in particular SHA-1) and every agreeing
remaining arguments, the argument lists `("ab","c")`, `("a","bc")` and
`("abc")` produce identical digest inputs and identical hex digests,
refuting the claimed injectivity. -/
theorem digest_boundary_collision
    (hashfunc : List Nat → String) (pre : List GoArg) (t : Int) :
    digest hashfunc (pre ++ [.str (utf8 "ab"), .str (utf8 "c"), .int64 t]) =
      digest hashfunc (pre ++ [.str (utf8 "a"), .str (utf8 "bc"), .int64 t]) ∧
    digest hashfunc (pre ++ [.str (utf8 "ab"), .str (utf8 "c"), .int64 t]) =
      digest hashfunc (pre ++ [.str (utf8 "abc"), .int64 t]) := by
  constructor <;>
    simp [digest, digestInput, encodeArg, binaryWriteGoInt, utf8]

/-! ## C4 — GenerateSecurePassword -/

theorem genPwLoop_ok (ent : Nat → Except String (Fin 62)) :
    ∀ n i, (∀ j, j < n → (ent (i + j)).isOk = true) →
      ∃ cs, genPwLoop ent i n = .ok cs ∧ cs.length = n ∧
        ∀ c ∈ cs, c ∈ passwordChars.data := by
  intro n
  induction n with
  | zero => intro i _; exact ⟨[], rfl, rfl, by simp⟩
  | succ n ih =>
    intro i h
    have h0 : (ent i).isOk = true := by simpa using h 0 (Nat.succ_pos n)
    obtain ⟨num, hnum⟩ : ∃ num, ent i = .ok num := by
      cases hv : ent i with
      | error e => rw [hv] at h0; simp [Except.isOk, Except.toBool] at h0
      | ok v => exact ⟨v, rfl⟩
    have hrest : ∀ j, j < n → (ent (i + 1 + j)).isOk = true := by
      intro j hj
      have := h (j + 1) (Nat.succ_lt_succ hj)
      simpa [Nat.add_assoc, Nat.add_comm 1 j] using this
    obtain ⟨cs, hcs, hlen, hmem⟩ := ih (i + 1) hrest
    refine ⟨passwordChars.data.getD num.val 'a' :: cs, ?_, by simp [hlen], ?_⟩
    · simp [genPwLoop, hnum, hcs]
    · intro c hc
      rcases List.mem_cons.mp hc with hc | hc
      · subst hc
        have hlt : num.val < passwordChars.data.length := by
          have h62 : passwordChars.data.length = 62 := by decide
          rw [h62]
          exact num.isLt
        simp [List.getD_eq_getElem?_getD, List.getElem?_eq_getElem hlt]
      · exact hmem c hc

theorem genPwLoop_error (ent : Nat → Except String (Fin 62)) :
    ∀ n i e, genPwLoop ent i n = .error e →
      ∃ j, j < n ∧ (ent (i + j)).isOk = false := by
  intro n
  induction n with
  | zero => intro i e h; simp [genPwLoop] at h
  | succ n ih =>
    intro i e h
    cases hv : ent i with
    | error e' => exact ⟨0, Nat.succ_pos n, by simp [hv, Except.isOk, Except.toBool]⟩
    | ok num =>
      rw [genPwLoop, hv] at h
      cases hr : genPwLoop ent (i + 1) n with
      | error e' =>
        obtain ⟨j, hj, hfail⟩ := ih (i + 1) e' hr
        exact ⟨j + 1, Nat.succ_lt_succ hj, by
          simpa [Nat.add_assoc, Nat.add_comm 1 j] using hfail⟩
      | ok cs => rw [hr] at h; simp at h

/-- C4 (corrected claim): for every entropy oracle and requested
length, when the first `effectiveLength length` entropy draws succeed
the generator returns a password of length `effectiveLength length` —
that is `length` itself when positive and the 32-character default when
`length ≤ 0` (NOT `max length 32` as the spec claims) — every character
of which lies in `[a-zA-Z0-9]`; and it fails only when some entropy
draw within that range fails. -/
theorem generateSecurePassword_spec (ent : Nat → Except String (Fin 62))
    (length : Int) :
    ((∀ i, i < effectiveLength length → (ent i).isOk = true) →
      ∃ s, GenerateSecurePassword ent length = .ok s ∧
        s.length = effectiveLength length ∧
        ∀ c ∈ s.data, c ∈ passwordChars.data) ∧
    (∀ e, GenerateSecurePassword ent length = .error e →
      ∃ i, i < effectiveLength length ∧ (ent i).isOk = false) := by
  constructor
  · intro h
    obtain ⟨cs, hcs, hlen, hmem⟩ :=
      genPwLoop_ok ent (effectiveLength length) 0 (by simpa using h)
    refine ⟨⟨cs⟩, ?_, ?_, hmem⟩
    · simp only [effectiveLength] at hcs
      rw [GenerateSecurePassword, hcs]
    · simpa [String.length] using hlen
  · intro e h
    rw [GenerateSecurePassword] at h
    cases hr : genPwLoop ent 0 (if length ≤ 0 then passwordLength else length.toNat) with
    | error e' =>
      obtain ⟨j, hj, hfail⟩ := genPwLoop_error ent _ 0 e' hr
      exact ⟨j, by simpa [effectiveLength] using hj, by simpa using hfail⟩
    | ok cs => rw [hr] at h; simp at h

/-- C4 witness: with an always-succeeding entropy source and requested
length 5 the generator yields a 5-character alphanumeric password. -/
theorem generateSecurePassword_spec_witness :
    ∃ s, GenerateSecurePassword constEntropy 5 = .ok s ∧
      s.length = effectiveLength 5 ∧
      ∀ c ∈ s.data, c ∈ passwordChars.data :=
  (generateSecurePassword_spec constEntropy 5).1 (by decide)

/-- C4 counterexample: the claim asserts
`length (generatePassword len) = max len 32` for every non-negative
`len`; at the concrete requested length 16 (entropy succeeding) the
code returns a password of length 16, and `16 ≠ max 16 32`.  The
repository's own test (`TestGenerateSecurePassword`, case
"custom length") expects 16. -/
theorem generateSecurePassword_max_refuted :
    (GenerateSecurePassword constEntropy 16).map String.length = .ok 16 ∧
    (16 : Nat) ≠ max 16 32 := by
  constructor
  · rfl
  · decide

/-! ## C5 — GenerateCloudInitUserData -/

/-- C5: the cloud-init generator matches the per-shell reference.  For
shell "bash" the output is exactly the Linux template instantiated with
the username and the bcrypt hash of the password — `linuxUserData` is a
function of the username and the hash alone, so the plaintext password
never reaches the document — and it contains the `lock_passwd: false`,
sudo, `/bin/bash`, `ssh_pwauth: true` and `chpasswd`/`expire: false`
stanzas.  For shell "pwsh" the output is exactly the Windows template,
carrying the plaintext password and `groups: Administrators`.  Any
other shell yields an error mentioning "unsupported shell". -/
theorem generateCloudInitUserData_spec :
    (∀ bcrypt u p h, bcrypt p = .ok h →
      GenerateCloudInitUserData bcrypt "bash" u p = .ok (linuxUserData u h) ∧
      strContains (linuxUserData u h) "lock_passwd: false" = true ∧
      strContains (linuxUserData u h) "sudo: ALL=(ALL) NOPASSWD:ALL" = true ∧
      strContains (linuxUserData u h) "shell: /bin/bash" = true ∧
      strContains (linuxUserData u h) "ssh_pwauth: true" = true ∧
      strContains (linuxUserData u h) "chpasswd:\n  expire: false" = true) ∧
    (∀ bcrypt u p,
      GenerateCloudInitUserData bcrypt "pwsh" u p = .ok (windowsUserData u p) ∧
      strContains (windowsUserData u p) p = true ∧
      strContains (windowsUserData u p) "groups: Administrators" = true) ∧
    (∀ bcrypt u p sh, sh ≠ "bash" → sh ≠ "pwsh" →
      GenerateCloudInitUserData bcrypt sh u p =
        .error ("unsupported shell: " ++ sh ++ " (expected 'bash' or 'pwsh')") ∧
      strContains ("unsupported shell: " ++ sh ++ " (expected 'bash' or 'pwsh')")
        "unsupported shell" = true) := by
  refine ⟨?_, ?_, ?_⟩
  · intro bcrypt u p h hb
    refine ⟨?_, ?_, ?_, ?_, ?_, ?_⟩
    · simp [GenerateCloudInitUserData, generateLinuxCloudInit,
        HashPasswordForCloudInit, hb]
    · simp only [linuxUserData, strContains, String.data_append]
      exact listContains_append_left (listContains_append_left
        (listContains_append_right (by decide)))
    · simp only [linuxUserData, strContains, String.data_append]
      exact listContains_append_right (by decide)
    · simp only [linuxUserData, strContains, String.data_append]
      exact listContains_append_right (by decide)
    · simp only [linuxUserData, strContains, String.data_append]
      exact listContains_append_right (by decide)
    · simp only [linuxUserData, strContains, String.data_append]
      exact listContains_append_right (by decide)
  · intro bcrypt u p
    refine ⟨?_, ?_, ?_⟩
    · simp [GenerateCloudInitUserData, generateWindowsCloudInit]
    · simp only [windowsUserData, strContains, String.data_append]
      exact listContains_append_left
        (listContains_append_right (listContains_self _))
    · simp only [windowsUserData, strContains, String.data_append]
      exact listContains_append_right (by decide)
  · intro bcrypt u p sh h1 h2
    refine ⟨?_, ?_⟩
    · unfold GenerateCloudInitUserData
      split
      · exact absurd rfl h1
      · exact absurd rfl h2
      · rfl
    · simp only [strContains, String.data_append]
      exact listContains_append_left (listContains_append_left (by decide))

/-- C5 witness: exercises all three branches at concrete inputs. -/
theorem generateCloudInitUserData_spec_witness :
    (GenerateCloudInitUserData constBcrypt "bash" "runner" "pw123" =
      .ok (linuxUserData "runner" "$2a$10$N9qo8uLOickgx2ZMRZoMye") ∧
      strContains (linuxUserData "runner" "$2a$10$N9qo8uLOickgx2ZMRZoMye")
        "lock_passwd: false" = true) ∧
    (GenerateCloudInitUserData constBcrypt "pwsh" "runner" "pw123" =
      .ok (windowsUserData "runner" "pw123") ∧
      strContains (windowsUserData "runner" "pw123") "pw123" = true) ∧
    GenerateCloudInitUserData constBcrypt "zsh" "runner" "pw123" =
      .error ("unsupported shell: " ++ "zsh" ++ " (expected 'bash' or 'pwsh')") := by
  have h1 := (generateCloudInitUserData_spec.1 constBcrypt "runner" "pw123"
    "$2a$10$N9qo8uLOickgx2ZMRZoMye" rfl)
  have h2 := generateCloudInitUserData_spec.2.1 constBcrypt "runner" "pw123"
  have h3 := generateCloudInitUserData_spec.2.2 constBcrypt "runner" "pw123" "zsh"
    (by decide) (by decide)
  exact ⟨⟨h1.1, h1.2.1⟩, ⟨h2.1, h2.2.1⟩, h3.1⟩

/-! ## C9 — FindJobVM -/

/-- C9: applied to the id-label list result, `FindJobVM` returns the
single VM when exactly one matches, the "disappeared" error when none
match, and for two or more matches a fatal ambiguity error whose text
mentions the count and the ambiguous id — it never picks one of
several matching VMs. -/
theorem findJobVM_spec (id : String) :
    FindJobVM id (.ok []) = .error disappearedMsg ∧
    (∀ vm, FindJobVM id (.ok [vm]) = .ok vm) ∧
    (∀ items : List VMI, 2 ≤ items.length →
      FindJobVM id (.ok items) = .error (ambiguousMsg items.length id) ∧
      strContains (ambiguousMsg items.length id) "ambiguous" = true ∧
      strContains (ambiguousMsg items.length id) id = true) := by
  refine ⟨rfl, fun vm => rfl, ?_⟩
  intro items hlen
  refine ⟨?_, ?_, ?_⟩
  · have h0 : items.length ≠ 0 := by omega
    have h1 : items.length > 1 := by omega
    simp [FindJobVM, h0, h1]
  · simp only [ambiguousMsg, strContains, String.data_append]
    exact listContains_append_left (listContains_append_left
      (listContains_append_left (by decide)))
  · simp only [ambiguousMsg, strContains, String.data_append]
    exact listContains_append_right (listContains_self _)

/-- C9 witness: a two-element list yields the ambiguity error naming
the count 2 and the id. -/
theorem findJobVM_spec_witness :
    FindJobVM "deadbeef" (.ok [{ name := "vm-a" }, { name := "vm-b" }]) =
      .error (ambiguousMsg 2 "deadbeef") ∧
    strContains (ambiguousMsg 2 "deadbeef") "ambiguous" = true := by
  have h := (findJobVM_spec "deadbeef").2.2
    [{ name := "vm-a" }, { name := "vm-b" }] (by decide)
  exact ⟨h.1, h.2.1⟩

/-! ## C7 — GC expiry decision -/

/-- C7: in the GC sweep a VM with a missing or unparseable `created-at`
label is skipped (never deleted); otherwise the effective ttl is the
parsed `ttl` label when it parses and the `--max-age` flag when the
label is absent or unparseable, and the VM is selected for deletion
exactly when `now - createdAt > ttl`.  In particular a VM created 4
hours ago with no ttl label is selected under `--max-age=3h` and kept
under `--max-age=5h`. -/
theorem gcDecision_spec
    (pt : String → Option Int) (pd : String → Option Int)
    (now maxAge : Int) :
    (∀ ttlS, gcDecision pt pd now maxAge "" ttlS = .skipped) ∧
    (∀ ca ttlS, ca ≠ "" → pt ca = none →
      gcDecision pt pd now maxAge ca ttlS = .skipped) ∧
    (∀ ca t d ttlS, ca ≠ "" → pt ca = some t → ttlS ≠ "" → pd ttlS = some d →
      gcDecision pt pd now maxAge ca ttlS =
        (if now - t > d then .delete else .keep)) ∧
    (∀ ca t ttlS, ca ≠ "" → pt ca = some t → ttlS ≠ "" → pd ttlS = none →
      gcDecision pt pd now maxAge ca ttlS =
        (if now - t > maxAge then .delete else .keep)) ∧
    (∀ ca t, ca ≠ "" → pt ca = some t →
      gcDecision pt pd now maxAge ca "" =
        (if now - t > maxAge then .delete else .keep)) ∧
    (∀ ca, ca ≠ "" → pt ca = some (now - 4 * hourNs) →
      gcDecision pt pd now (3 * hourNs) ca "" = .delete ∧
      gcDecision pt pd now (5 * hourNs) ca "" = .keep) := by
  refine ⟨fun ttlS => by simp [gcDecision], ?_, ?_, ?_, ?_, ?_⟩
  · intro ca ttlS hca hpt
    simp [gcDecision, hca, hpt]
  · intro ca t d ttlS hca hpt httl hpd
    simp [gcDecision, hca, hpt, httl, hpd]
  · intro ca t ttlS hca hpt httl hpd
    simp [gcDecision, hca, hpt, httl, hpd]
  · intro ca t hca hpt
    simp [gcDecision, hca, hpt]
  · intro ca hca hpt
    constructor
    · have h4 : now - (now - 4 * hourNs) > 3 * hourNs := by
        simp only [hourNs]; omega
      simp [gcDecision, hca, hpt, h4]
      simp only [hourNs]
      omega
    · have h4 : ¬ now - (now - 4 * hourNs) > 5 * hourNs := by
        simp only [hourNs]; omega
      simp [gcDecision, hca, hpt, h4]
      simp only [hourNs]
      omega

/-- C7 witness: concrete parsers and timestamps exercising the
skip, label-ttl, fallback and 4h/3h/5h cases. -/
theorem gcDecision_spec_witness :
    gcDecision (fun _ => some 0) (fun _ => some hourNs) 0 0 "" "" = .skipped ∧
    gcDecision (fun _ => none) (fun _ => none) 0 0 "bad" "" = .skipped ∧
    gcDecision (fun _ => some 0) (fun _ => some hourNs) (2 * hourNs) 0
      "2026-01-01T00:00:00Z" "1h" = .delete ∧
    gcDecision (fun _ => some (4 * hourNs)) (fun _ => none) (8 * hourNs)
      (3 * hourNs) "2026-01-01T00:00:00Z" "" = .delete ∧
    gcDecision (fun _ => some (4 * hourNs)) (fun _ => none) (8 * hourNs)
      (5 * hourNs) "2026-01-01T00:00:00Z" "" = .keep := by
  have h1 := (gcDecision_spec (fun _ => some 0) (fun _ => some hourNs) 0 0).1 ""
  have h2 := (gcDecision_spec (fun _ => none) (fun _ => none) 0 0).2.1
    "bad" "" (by decide) rfl
  have h3 := (gcDecision_spec (fun _ => some 0) (fun _ => some hourNs)
    (2 * hourNs) 0).2.2.1 "2026-01-01T00:00:00Z" 0 hourNs "1h"
    (by decide) rfl (by decide) rfl
  have hP8 := (gcDecision_spec (fun _ => some (4 * hourNs)) (fun _ => none)
    (8 * hourNs) 0).2.2.2.2.2 "2026-01-01T00:00:00Z" (by decide)
    (by simp only [hourNs]; norm_num)
  refine ⟨h1, h2, ?_, hP8.1, hP8.2⟩
  rw [h3]
  norm_num [hourNs]

/-! ## C8 — cleanup --skip-if -/

theorem skipMatch_of_eq {phase entry : String} (h : entry = phase) :
    skipMatch phase entry = true := by
  subst h
  cases hd : entry.data with
  | nil => simp [skipMatch, hd]
  | cons c rest =>
    by_cases hc : c = '!'
    · subst hc
      have hne : entry.data ≠ rest := by
        rw [hd]
        intro hcontra
        exact List.cons_ne_self '!' rest hcontra
      simp [skipMatch, hd, hne]
    · simp [skipMatch, hd, hc]

theorem skipMatch_of_neg {phase entry : String} {p : List Char}
    (hd : entry.data = '!' :: p) (hne : phase.data ≠ p) :
    skipMatch phase entry = true := by
  simp [skipMatch, hd, hne]

/-- C8: any `--skip-if` entry that equals the VM's `status.phase`, or
that has the form `!<p>` with the phase different from `<p>`, makes
`cleanup` return success without issuing any deletion (neither the
Secret nor the VM); in particular `--skip-if=Failed` spares a VM in
phase `Failed`, and `--skip-if=!Running` spares every VM whose phase is
not `Running`. -/
theorem cleanup_skipIf_spec :
    (∀ (deps : CleanupDeps) (skipIf : List String) (jctx : JobContext)
       (vm : VMI) (entry : String),
      FindJobVM jctx.id deps.listResult = .ok vm →
      entry ∈ skipIf →
      (entry = vm.phase ∨ ∃ p, entry.data = '!' :: p ∧ vm.phase.data ≠ p) →
      CleanupCmd.Run deps skipIf jctx = (.ok (), [])) ∧
    (∀ (deps : CleanupDeps) (jctx : JobContext) (vm : VMI),
      FindJobVM jctx.id deps.listResult = .ok vm →
      vm.phase = "Failed" →
      CleanupCmd.Run deps ["Failed"] jctx = (.ok (), [])) ∧
    (∀ (deps : CleanupDeps) (jctx : JobContext) (vm : VMI),
      FindJobVM jctx.id deps.listResult = .ok vm →
      vm.phase ≠ "Running" →
      CleanupCmd.Run deps ["!Running"] jctx = (.ok (), [])) := by
  have main : ∀ (deps : CleanupDeps) (skipIf : List String)
      (jctx : JobContext) (vm : VMI) (entry : String),
      FindJobVM jctx.id deps.listResult = .ok vm →
      entry ∈ skipIf →
      (entry = vm.phase ∨ ∃ p, entry.data = '!' :: p ∧ vm.phase.data ≠ p) →
      CleanupCmd.Run deps skipIf jctx = (.ok (), []) := by
    intro deps skipIf jctx vm entry hfind hmem hform
    have hmatch : skipMatch vm.phase entry = true := by
      rcases hform with heq | ⟨p, hd, hne⟩
      · exact skipMatch_of_eq heq
      · exact skipMatch_of_neg hd hne
    have hany : skipIf.any (skipMatch vm.phase) = true :=
      List.any_eq_true.mpr ⟨entry, hmem, hmatch⟩
    rw [CleanupCmd.Run, hfind]
    simp [hany]
  refine ⟨main, ?_, ?_⟩
  · intro deps jctx vm hfind hphase
    exact main deps ["Failed"] jctx vm "Failed" hfind (by simp)
      (Or.inl hphase.symm)
  · intro deps jctx vm hfind hphase
    refine main deps ["!Running"] jctx vm "!Running" hfind (by simp)
      (Or.inr ⟨"Running".data, rfl, ?_⟩)
    intro hcontra
    exact hphase (String.ext hcontra)

/-- C8 witness: a found VM in phase `Failed` under `--skip-if=Failed`
is left alone, and one in phase `Succeeded` under `--skip-if=!Running`
likewise. -/
theorem cleanup_skipIf_spec_witness :
    CleanupCmd.Run
      { listResult := .ok [{ name := "vm-a", phase := "Failed" }],
        kubeConfig := .ok (), parseRC := fun _ => none,
        secretDelete := fun _ => .ok (), vmDelete := fun _ => .ok (),
        watchConns := [] } ["Failed"] { id := "x" } = (.ok (), []) ∧
    CleanupCmd.Run
      { listResult := .ok [{ name := "vm-b", phase := "Succeeded" }],
        kubeConfig := .ok (), parseRC := fun _ => none,
        secretDelete := fun _ => .ok (), vmDelete := fun _ => .ok (),
        watchConns := [] } ["!Running"] { id := "x" } = (.ok (), []) := by
  constructor
  · exact cleanup_skipIf_spec.2.1 _ { id := "x" }
      { name := "vm-a", phase := "Failed" } rfl rfl
  · exact cleanup_skipIf_spec.2.2 _ { id := "x" }
      { name := "vm-b", phase := "Succeeded" } rfl (by decide)

/-! ## C6 — WatchJobVM error handling and sentinel -/

/-- C6: on receiving an `Error` event the watcher first consults the
callback with `(Error, nil)` and returns its decision — the sentinel
terminates the watch successfully with no further stream opened, any
other error is surfaced — and on a nil answer it reopens the stream
exactly once for this event, with the resume resourceVersion reset to
"0" (the remaining buffered events of the broken connection are
dropped); on the sentinel at any ordinary event the watch likewise
returns success without reconnecting. -/
theorem watchJobVM_error_spec
    (fn : String → Option VMI → CbRes) (rv reason message : String)
    (dropped : List WEvent) (conns : List WConn) :
    (WatchJobVM fn rv (.ok (.errEvent reason message :: dropped) :: conns) =
      match fn watchError none with
      | .watchDone => (.done, [rv])
      | .failed e => (.failed e, [rv])
      | .next =>
        ((WatchJobVM fn "0" conns).1, rv :: (WatchJobVM fn "0" conns).2)) ∧
    (∀ t vm rest,
      WatchJobVM fn rv (.ok (.vmEvent t vm :: rest) :: conns) =
        match fn t (some vm) with
        | .watchDone => (.done, [rv])
        | .failed e => (.failed e, [rv])
        | .next =>
          ((watchConsume fn (fun rv' => WatchJobVM fn rv' conns)
              vm.resourceVersion rest).1,
           rv :: (watchConsume fn (fun rv' => WatchJobVM fn rv' conns)
              vm.resourceVersion rest).2)) := by
  constructor
  · rw [WatchJobVM]
    cases hfn : fn watchError none <;> simp [watchConsume, hfn]
  · intro t vm rest
    rw [WatchJobVM]
    cases hfn : fn t (some vm) <;> simp [watchConsume, hfn]


/-! ## C2 — prepare rollback ordering -/

/-- C2: within prepare the credentials Secret is created before the VM
is created; when the cluster rejects the VM creation, the Secret is
deleted before prepare returns (the rollback deletion's own outcome
never influences the result, so a failing deletion is swallowed) and
the VM-creation error is surfaced unchanged. -/
theorem prepare_rollback_spec
    (deps : PrepareDeps) (cmd : PrepareCmd) (jctx0 : JobContext)
    (pw ud : String) (vm : VMObject) (e : String)
    (hpw : GenerateSecurePassword deps.entropy 32 = .ok pw)
    (hud : GenerateCloudInitUserData deps.bcrypt cmd.runConfig.shell
      cmd.runConfig.ssh.user pw = .ok ud)
    (hcfg : deps.kubeConfig = .ok ())
    (hsc : deps.secretCreate ("vm-creds-" ++ (mergeDefaults cmd jctx0).id)
      { user := cmd.runConfig.ssh.user, password := pw, userdata := ud } = .ok ())
    (hvm : CreateJobVM deps.parseQuantity (mergeDefaults cmd jctx0)
      (clearedRunConfig cmd ("vm-creds-" ++ (mergeDefaults cmd jctx0).id))
      ("vm-creds-" ++ (mergeDefaults cmd jctx0).id) = .ok vm)
    (hsub : deps.vmSubmit vm = .error e) :
    PrepareCmd.Run deps cmd jctx0 =
      (.error e,
       [.secretCreate ("vm-creds-" ++ (mergeDefaults cmd jctx0).id)
          { user := cmd.runConfig.ssh.user, password := pw, userdata := ud },
        .vmSubmit vm,
        .secretDelete ("vm-creds-" ++ (mergeDefaults cmd jctx0).id)]) := by
  simp [PrepareCmd.Run, hpw, hud, hcfg, hsc, hvm, hsub]

/-- C2 witness: the concrete rollback scenario — every step up to the
VM POST succeeds, the POST fails with `Forbidden`, and the run returns
the unchanged `Forbidden` error even though the rollback deletion
oracle itself fails. -/
theorem prepare_rollback_spec_witness :
    (PrepareCmd.Run depsRollback cmd0 jctx00).1 = .error "Forbidden" := by
  obtain ⟨vm, hvm⟩ : ∃ vm,
      CreateJobVM depsRollback.parseQuantity (mergeDefaults cmd0 jctx00)
        (clearedRunConfig cmd0 ("vm-creds-" ++ (mergeDefaults cmd0 jctx00).id))
        ("vm-creds-" ++ (mergeDefaults cmd0 jctx00).id) = .ok vm := ⟨_, rfl⟩
  have h := prepare_rollback_spec depsRollback cmd0 jctx00
    "aaaaaaaaaaaaaaaaaaaaaaaaaaaaaaaa"
    (linuxUserData "runner" "$2a$10$N9qo8uLOickgx2ZMRZoMye") vm "Forbidden"
    rfl rfl rfl rfl hvm rfl
  rw [h]

/-! ## C3 — the submitted VM never carries the plaintext password -/

theorem createJobVM_ok_fields {pq : String → Option String}
    {jctx : JobContext} {rc : RunConfig} {sn : String} {v : VMObject}
    (h : CreateJobVM pq jctx rc sn = .ok v) :
    v.annotations.lookup RunConfigKey = some (jsonRunConfig rc) ∧
    v.userDataSecretRef = sn := by
  rw [CreateJobVM] at h
  simp only [bind, Except.bind] at h
  split at h
  · simp at h
  split at h
  · simp at h
  split at h
  · simp at h
  split at h
  · simp at h
  split at h
  · simp at h
  split at h
  · simp at h
  split at h
  · simp at h
  · rw [Except.ok.injEq] at h
    subst h
    exact ⟨rfl, rfl⟩

/-- Helper for C3 and C10: every VM object recorded as submitted by
prepare is exactly the one `CreateJobVM` builds from the merged job
context and the CLEARED RunConfig (password emptied, secretRef set to
the Secret's name). -/
theorem prepare_vmSubmit_built
    {deps : PrepareDeps} {cmd : PrepareCmd} {jctx0 : JobContext} {v : VMObject}
    (h : PrepEvent.vmSubmit v ∈ (PrepareCmd.Run deps cmd jctx0).2) :
    CreateJobVM deps.parseQuantity (mergeDefaults cmd jctx0)
      (clearedRunConfig cmd ("vm-creds-" ++ (mergeDefaults cmd jctx0).id))
      ("vm-creds-" ++ (mergeDefaults cmd jctx0).id) = .ok v := by
  simp only [PrepareCmd.Run] at h
  split at h
  · simp at h
  split at h
  · simp at h
  split at h
  · simp at h
  split at h
  · simp at h
  split at h
  · simp at h
  case _ vm hvm =>
  split at h
  · simp at h
    subst h
    exact hvm
  split at h
  · simp at h
    subst h
    exact hvm
  split at h <;>
  · simp at h
    subst h
    exact hvm

/-- C3: the VM object submitted to the cluster never contains the
plaintext SSH password: its `RunConfigKey` annotation is the JSON of
the RunConfig AFTER `ssh.password` was emptied and `ssh.secretRef`
pointed at the created Secret, its cloud-init volume references only
the Secret's name; and the submitted object is a function of the
merged job context, the cleared config and the quantity parser alone —
two prepare runs with arbitrarily different generated passwords,
entropy, bcrypt or cluster oracles (same quantity parser) submit the
identical VM object. -/
theorem prepare_vm_never_contains_password :
    (∀ (deps : PrepareDeps) (cmd : PrepareCmd) (jctx0 : JobContext)
       (v : VMObject),
      PrepEvent.vmSubmit v ∈ (PrepareCmd.Run deps cmd jctx0).2 →
      v.annotations.lookup RunConfigKey =
        some (jsonRunConfig
          (clearedRunConfig cmd ("vm-creds-" ++ (mergeDefaults cmd jctx0).id))) ∧
      v.userDataSecretRef = "vm-creds-" ++ (mergeDefaults cmd jctx0).id ∧
      (clearedRunConfig cmd
        ("vm-creds-" ++ (mergeDefaults cmd jctx0).id)).ssh.password = "") ∧
    (∀ (deps₁ deps₂ : PrepareDeps) (cmd : PrepareCmd) (jctx0 : JobContext)
       (v₁ v₂ : VMObject),
      deps₂.parseQuantity = deps₁.parseQuantity →
      PrepEvent.vmSubmit v₁ ∈ (PrepareCmd.Run deps₁ cmd jctx0).2 →
      PrepEvent.vmSubmit v₂ ∈ (PrepareCmd.Run deps₂ cmd jctx0).2 →
      v₁ = v₂) := by
  constructor
  · intro deps cmd jctx0 v h
    have hf := createJobVM_ok_fields (prepare_vmSubmit_built h)
    exact ⟨hf.1, hf.2, rfl⟩
  · intro deps₁ deps₂ cmd jctx0 v₁ v₂ hpq h₁ h₂
    have hb₁ := prepare_vmSubmit_built h₁
    have hb₂ := prepare_vmSubmit_built h₂
    rw [hpq, hb₁, Except.ok.injEq] at hb₂
    exact hb₂

/-- Helper: the full happy-path trace of the prepare phase. -/
theorem prepare_happy_trace
    (deps : PrepareDeps) (cmd : PrepareCmd) (jctx0 : JobContext)
    (pw ud ip : String) (vm : VMObject)
    (hpw : GenerateSecurePassword deps.entropy 32 = .ok pw)
    (hud : GenerateCloudInitUserData deps.bcrypt cmd.runConfig.shell
      cmd.runConfig.ssh.user pw = .ok ud)
    (hcfg : deps.kubeConfig = .ok ())
    (hsc : deps.secretCreate ("vm-creds-" ++ (mergeDefaults cmd jctx0).id)
      { user := cmd.runConfig.ssh.user, password := pw, userdata := ud } = .ok ())
    (hvm : CreateJobVM deps.parseQuantity (mergeDefaults cmd jctx0)
      (clearedRunConfig cmd ("vm-creds-" ++ (mergeDefaults cmd jctx0).id))
      ("vm-creds-" ++ (mergeDefaults cmd jctx0).id) = .ok vm)
    (hsub : deps.vmSubmit vm = .ok ())
    (hwatch : deps.watchResult = .ok ip)
    (hdial : deps.dial ip
      (clearedRunConfig cmd ("vm-creds-" ++ (mergeDefaults cmd jctx0).id)).ssh
      = .ok ()) :
    PrepareCmd.Run deps cmd jctx0 =
      (.ok (),
       [.secretCreate ("vm-creds-" ++ (mergeDefaults cmd jctx0).id)
          { user := cmd.runConfig.ssh.user, password := pw, userdata := ud },
        .vmSubmit vm,
        .dial ip (clearedRunConfig cmd
          ("vm-creds-" ++ (mergeDefaults cmd jctx0).id)).ssh]) := by
  simp [PrepareCmd.Run, hpw, hud, hcfg, hsc, hvm, hsub, hwatch, hdial]

/-- C3 witness: the happy-path run submits `vm0`, whose RunConfig
annotation carries the cleared configuration (empty password, Secret
reference `vm-creds-abc`). -/
theorem prepare_vm_never_contains_password_witness :
    PrepEvent.vmSubmit vm0 ∈ (PrepareCmd.Run depsHappy cmd0 jctx00).2 ∧
    vm0.annotations.lookup RunConfigKey =
      some (jsonRunConfig (clearedRunConfig cmd0 "vm-creds-abc")) ∧
    vm0.userDataSecretRef = "vm-creds-abc" := by
  have hvm : CreateJobVM depsHappy.parseQuantity (mergeDefaults cmd0 jctx00)
      (clearedRunConfig cmd0 ("vm-creds-" ++ (mergeDefaults cmd0 jctx00).id))
      ("vm-creds-" ++ (mergeDefaults cmd0 jctx00).id) = .ok vm0 := rfl
  have htrace := prepare_happy_trace depsHappy cmd0 jctx00
    "aaaaaaaaaaaaaaaaaaaaaaaaaaaaaaaa"
    (linuxUserData "runner" "$2a$10$N9qo8uLOickgx2ZMRZoMye") "10.0.0.5" vm0
    rfl rfl rfl rfl hvm rfl rfl rfl
  have hmem : PrepEvent.vmSubmit vm0 ∈ (PrepareCmd.Run depsHappy cmd0 jctx00).2 := by
    rw [htrace]
    simp
  have h := prepare_vm_never_contains_password.1 depsHappy cmd0 jctx00 vm0 hmem
  exact ⟨hmem, h.1, h.2.1⟩

/-! ## C10 — prepare dials SSH with the cleared credentials -/

/-- C10: whenever the prepare phase reaches the final SSH reachability
probe, the credentials handed to the dialer are the RunConfig's SSH
block AFTER its password was emptied and its secretRef pointed at the
created Secret — never the freshly generated random password — so the
dial happens with an empty password. -/
theorem prepare_dial_cleared_credentials
    (deps : PrepareDeps) (cmd : PrepareCmd) (jctx0 : JobContext)
    (ip : String) (c : SSHConfig)
    (h : PrepEvent.dial ip c ∈ (PrepareCmd.Run deps cmd jctx0).2) :
    c = (clearedRunConfig cmd ("vm-creds-" ++ (mergeDefaults cmd jctx0).id)).ssh ∧
    c.password = "" := by
  have hc : c = (clearedRunConfig cmd
      ("vm-creds-" ++ (mergeDefaults cmd jctx0).id)).ssh := by
    simp only [PrepareCmd.Run] at h
    split at h
    · simp at h
    split at h
    · simp at h
    split at h
    · simp at h
    split at h
    · simp at h
    split at h
    · simp at h
    split at h
    · simp at h
    split at h
    · simp at h
    split at h <;>
    · simp at h
      exact h.2
  refine ⟨hc, ?_⟩
  rw [hc]
  rfl

/-- C10 witness: on the happy path the dialer receives exactly the
cleared credentials (user `runner`, empty password, Secret
reference). -/
theorem prepare_dial_cleared_credentials_witness :
    PrepEvent.dial "10.0.0.5" (clearedRunConfig cmd0 "vm-creds-abc").ssh
      ∈ (PrepareCmd.Run depsHappy cmd0 jctx00).2 ∧
    (clearedRunConfig cmd0 "vm-creds-abc").ssh.password = "" := by
  have hvm : CreateJobVM depsHappy.parseQuantity (mergeDefaults cmd0 jctx00)
      (clearedRunConfig cmd0 ("vm-creds-" ++ (mergeDefaults cmd0 jctx00).id))
      ("vm-creds-" ++ (mergeDefaults cmd0 jctx00).id) = .ok vm0 := rfl
  have htrace := prepare_happy_trace depsHappy cmd0 jctx00
    "aaaaaaaaaaaaaaaaaaaaaaaaaaaaaaaa"
    (linuxUserData "runner" "$2a$10$N9qo8uLOickgx2ZMRZoMye") "10.0.0.5" vm0
    rfl rfl rfl rfl hvm rfl rfl rfl
  have hmem : PrepEvent.dial "10.0.0.5" (clearedRunConfig cmd0 "vm-creds-abc").ssh
      ∈ (PrepareCmd.Run depsHappy cmd0 jctx00).2 := by
    rw [htrace]
    have hsn : (clearedRunConfig cmd0 "vm-creds-abc").ssh =
        (clearedRunConfig cmd0 ("vm-creds-" ++ (mergeDefaults cmd0 jctx00).id)).ssh := by
      decide
    rw [hsn]
    simp
  have h := prepare_dial_cleared_credentials depsHappy cmd0 jctx00 "10.0.0.5"
    (clearedRunConfig cmd0 "vm-creds-abc").ssh hmem
  exact ⟨hmem, h.2⟩

end GRKV
